import Mathlib

/-!
Shallow embedding of the `isbn_harvester` harvest core
(`harvest.py`, `http_client.py`, `checkpoint.py`, `parse.py`,
`normalize.py`, `core/store.py`, `export_full.py`) and proofs of the
testable properties stated in the design specification.

Conventions of the embedding:
  * Python strings are `String`; Python string truthiness (`if s:`) is
    emptiness testing; `a or b` on strings is `pyOr`.
  * Python `int` is `Int`, Python `float` is `ℚ` (the harvest core uses
    floats only through arithmetic that is exact on the values the
    properties quantify over; no claim here depends on rounding).
  * The scoring collaborator (`rank_score`, `jewish_relevance_score`) and
    the tag builder (`build_shopify_tags`) are consumed by the merge
    function as opaque pure functions, exactly as the design document
    describes them ("owned by an external collaborator but consumed
    here"); the merge theorems quantify over them.
  * Stateful code (row store, checkpoint log, worker page loop) is
    explicit state passing; fallible remote calls are `Except` values.
-/

/-- Python `a or b` for strings: first operand unless it is falsy (empty). -/
def pyOr (a b : String) : String :=
  if a = "" then b else a

/-- Python `a or b` for ints: first operand unless it is falsy (zero). -/
def pyOrInt (a b : Int) : Int :=
  if a = 0 then b else a

/-- Does the character list start with the given pattern list? -/
def startsWithChars : List Char → List Char → Bool
  | _, [] => true
  | [], _ :: _ => false
  | a :: as, b :: bs => a = b && startsWithChars as bs

/-- Does `needle` occur as a contiguous sublist of the haystack?
Models Python's `needle in hay` substring test. -/
def hasSubChars (needle : List Char) : List Char → Bool
  | [] => startsWithChars [] needle
  | h :: t => startsWithChars (h :: t) needle || hasSubChars needle t

/-- Python `needle in hay` on strings. -/
def strContains (hay needle : String) : Bool :=
  hasSubChars needle.toList hay.toList

/-- Python `str.strip()` on a character list: drop leading and trailing
whitespace. -/
def stripChars (cs : List Char) : List Char :=
  ((cs.dropWhile Char.isWhitespace).reverse.dropWhile Char.isWhitespace).reverse

/-- Python `str.strip()`. -/
def pyStrip (s : String) : String :=
  String.mk (stripChars s.toList)

/-- Split a character list on a separator character; like Python
`s.split(sep)` for a one-character separator (empty chunks kept). -/
def splitOnCharAux (sep : Char) (acc : List Char) : List Char → List (List Char)
  | [] => [acc.reverse]
  | c :: rest =>
    if c = sep then acc.reverse :: splitOnCharAux sep [] rest
    else splitOnCharAux sep (c :: acc) rest

/-- Python `s.split(sep)` for a one-character separator. -/
def pySplit (s : String) (sep : Char) : List String :=
  (splitOnCharAux sep [] s.toList).map String.mk

/-- Python `sep.join(parts)` for a one-character separator. -/
def pyJoin (sep : Char) (parts : List String) : String :=
  String.mk (((parts.map String.toList).intersperse [sep]).flatten)

/-- normalize.py `normalize_isbn`: strip, drop every character outside
`[0-9Xx]`, uppercase (which only affects `x`). -/
def normalize_isbn (x : String) : String :=
  let t := pyStrip x
  String.mk ((t.toList.filter (fun c => c.isDigit || c = 'X' || c = 'x')).map
    (fun c => if c = 'x' then 'X' else c))

/-- Digit value of a character (meaningful on `isDigit` characters). -/
def digitVal (c : Char) : Nat := c.toNat - '0'.toNat

/-- normalize.py `ISBN10_RE`: nine digits then a digit or `X`. -/
def isbn10_re (cs : List Char) : Bool :=
  cs.length = 10 && (cs.take 9).all Char.isDigit &&
    (match cs.getLast? with
     | some c => c.isDigit || c = 'X'
     | none => false)

/-- normalize.py `ISBN13_RE`: exactly thirteen digits. -/
def isbn13_re (cs : List Char) : Bool :=
  cs.length = 13 && cs.all Char.isDigit

/-- normalize.py `is_valid_isbn10`: weighted checksum `Σ i·dᵢ + 10·check ≡ 0 (mod 11)`. -/
def is_valid_isbn10 (isbn10 : String) : Bool :=
  let s := normalize_isbn isbn10
  let cs := s.toList
  if isbn10_re cs then
    let total := ((cs.take 9).enum.map
      (fun p => (p.1 + 1) * digitVal p.2)).sum
    let checkVal : Nat :=
      match cs.getLast? with
      | some c => if c = 'X' then 10 else digitVal c
      | none => 0
    (total + 10 * checkVal) % 11 = 0
  else false

/-- normalize.py `is_valid_isbn13`: alternating 1/3 weights over the first
twelve digits; the thirteenth digit must equal `(10 - s % 10) % 10`. -/
def is_valid_isbn13 (isbn13 : String) : Bool :=
  let s := normalize_isbn isbn13
  let cs := s.toList
  if isbn13_re cs then
    let digits := cs.map digitVal
    let sum12 := ((digits.take 12).enum.map
      (fun p => p.2 * (if p.1 % 2 = 0 then 1 else 3))).sum
    (10 - sum12 % 10) % 10 = digits.getD 12 0
  else false

/-- models.py `BookRow`: the flattened bibliographic record. Python floats
(`popularity_proxy`, `rank_score`) are embedded as `ℚ`. -/
structure BookRow where
  isbn10 : String
  isbn13 : String
  title : String
  title_long : String
  subtitle : String
  edition : String
  dimensions : String
  authors : String
  date_published : String
  publisher : String
  language : String
  subjects : String
  pages : String
  format : String
  synopsis : String
  overview : String
  cover_url : String
  cover_url_original : String
  cover_expires_at : Int
  s3_cover_key : String
  cloudfront_cover_url : String
  bookshop_url : String
  bookshop_affiliate_url : String
  jewish_score : Int
  fiction_flag : Int
  popularity_proxy : ℚ
  rank_score : ℚ
  matched_terms : String
  seen_count : Int
  sources : String
  shopify_tags : String
  task_endpoint : String
  task_query : String
  task_group : String
  page : Int
deriving DecidableEq

/-- models.py `TaskSpec`. -/
structure TaskSpec where
  endpoint : String
  query : String
  group : String
deriving DecidableEq

/-- harvest.py `_merge_sources`: strip the incoming key; if it is empty
keep the existing string; otherwise split the existing string on `|`,
drop empty chunks, append the key if absent, and keep the first
`max_sources` entries. -/
def merge_sources (existing_sources new_source : String) (max_sources : Nat) : String :=
  let ns := pyStrip new_source
  if ns = "" then pyOr existing_sources ""
  else
    let parts := (pySplit existing_sources '|').filter (fun p => p ≠ "")
    if parts.contains ns then pyJoin '|' (parts.take max_sources)
    else pyJoin '|' ((parts ++ [ns]).take max_sources)

/-- harvest.py `_completeness`: count of populated descriptive fields. -/
def completeness (r : BookRow) : Nat :=
  (if r.title ≠ "" then 1 else 0) +
  (if r.authors ≠ "" then 1 else 0) +
  (if r.subjects ≠ "" then 1 else 0) +
  (if r.synopsis ≠ "" then 1 else 0) +
  (if r.publisher ≠ "" then 1 else 0) +
  (if r.date_published ≠ "" then 1 else 0) +
  (if r.pages ≠ "" then 1 else 0) +
  (if r.subtitle ≠ "" then 1 else 0) +
  (if r.edition ≠ "" then 1 else 0) +
  (if r.dimensions ≠ "" then 1 else 0) +
  (if pyOr r.cloudfront_cover_url (pyOr r.cover_url r.cover_url_original) ≠ "" then 1 else 0)

/-- harvest.py `merge_row` lines 77-84: the `pick` selection chain
(`existing` unless the incoming row wins by score, then completeness,
then rank score). -/
def merge_pick (existing incoming : BookRow) : BookRow :=
  if incoming.jewish_score > existing.jewish_score then incoming
  else if incoming.jewish_score = existing.jewish_score then
    (if completeness incoming > completeness existing then incoming
     else if completeness incoming = completeness existing ∧
         incoming.rank_score > existing.rank_score then incoming
     else existing)
  else existing

/-- harvest.py `merge_row`. The scoring collaborator `rank`
(scoring.py `rank_score`, arguments: jewish score, popularity proxy,
fiction flag, fiction-only policy, new seen count) and the tag builder
`tags` (normalize.py `build_shopify_tags`, arguments: subjects, matched
terms, publisher) are passed as pure functions. -/
def merge_row (rank : Int → ℚ → Int → Bool → Int → ℚ)
    (tags : String → String → String → String)
    (fiction_only : Bool) (existing incoming : BookRow) : BookRow :=
  let seen_count := max 1 existing.seen_count + 1
  let sources := merge_sources existing.sources incoming.task_query 12
  let pick := merge_pick existing incoming
  let rscore := rank pick.jewish_score pick.popularity_proxy pick.fiction_flag
    fiction_only seen_count
  let stags := tags (pyOr pick.subjects existing.subjects)
    (pyOr pick.matched_terms existing.matched_terms)
    (pyOr pick.publisher existing.publisher)
  { pick with
    subtitle := pyOr pick.subtitle existing.subtitle
    edition := pyOr pick.edition existing.edition
    dimensions := pyOr pick.dimensions existing.dimensions
    cover_url := pyOr pick.cover_url existing.cover_url
    cover_url_original := pyOr pick.cover_url_original existing.cover_url_original
    s3_cover_key := pyOr pick.s3_cover_key existing.s3_cover_key
    cloudfront_cover_url := pyOr pick.cloudfront_cover_url existing.cloudfront_cover_url
    cover_expires_at := pyOrInt pick.cover_expires_at existing.cover_expires_at
    rank_score := rscore
    seen_count := seen_count
    sources := sources
    shopify_tags := stags }

/-- core/store.py `RowStore`: a map from canonical identifier to record;
the dict is embedded as a function to `Option`. -/
def RowStoreFun := String → Option BookRow

/-- The empty row store. -/
def emptyStore : RowStoreFun := fun _ => none

/-- core/store.py `RowStore.upsert` (with a merge function, as the harvest
worker always passes one): insert when absent, otherwise replace with
`mergeFn existing row`. -/
def store_upsert (st : RowStoreFun) (isbn13 : String) (row : BookRow)
    (mergeFn : BookRow → BookRow → BookRow) : RowStoreFun :=
  fun k =>
    if k = isbn13 then
      match st isbn13 with
      | some existing => some (mergeFn existing row)
      | none => some row
    else st k

/-- checkpoint.py checkpoint event: one JSON line of the append-only log,
restricted to the keys the resume logic and the claims read. -/
structure CkEvent where
  type : String
  task_id : String
  reason : String
deriving DecidableEq

/-- checkpoint.py `read_completed_tasks`: collect the `task_id` of every
`task_done`-typed event whose id is truthy. -/
def read_completed_tasks (events : List CkEvent) : List String :=
  (events.filter (fun e => e.type = "task_done" && e.task_id ≠ "")).map
    (fun e => e.task_id)

/-- harvest.py `Harvester.run` lines 274-281: with resume on, skip every
task whose checkpoint id is already completed. `tid` stands for
checkpoint.py `task_id` (a SHA-1 of `endpoint|group|query`, treated as an
opaque key function of the task). -/
def run_work_set (tid : TaskSpec → String) (tasks : List TaskSpec)
    (events : List CkEvent) (resume : Bool) : List TaskSpec :=
  let completed := if resume then read_completed_tasks events else []
  tasks.filter (fun t => !(completed.contains (tid t)))

/-- harvest.py worker lines 535-570: checkpoint events written when a task
terminates. An exception escaping the page loop writes a `task_error`
event, and `task_complete` stays false, so the `finally` block then
writes `task_incomplete`; only an error-free task writes `task_done`. -/
def worker_terminal_events (errored : Bool) (tid : String) (err_msg : String) :
    List CkEvent :=
  if errored then
    [⟨"task_error", tid, err_msg⟩, ⟨"task_incomplete", tid, ""⟩]
  else [⟨"task_done", tid, ""⟩]

/-- parse.py `_HTML_RE` helper: after an opening `<`, drop characters up to
the first `>` (requiring at least one non-`>` in between, as `<[^>]+>`
does); `none` when the pattern cannot match here. -/
def dropTagDone : List Char → Option (List Char)
  | [] => none
  | '>' :: rest => some rest
  | _ :: rest => dropTagDone rest

/-- See `dropTagDone`; checks the one-or-more requirement of `<[^>]+>`. -/
def dropTagClose : List Char → Option (List Char)
  | [] => none
  | '>' :: _ => none
  | _ :: rest => dropTagDone rest

/-- parse.py `_HTML_RE.sub(" ", ·)`: replace every `<[^>]+>` match with one
space (fuel-indexed structural recursion; the fuel is the list length, so
it never runs out). -/
def stripTagsGo : Nat → List Char → List Char
  | 0, cs => cs
  | _ + 1, [] => []
  | f + 1, '<' :: rest =>
    (match dropTagClose rest with
     | some rest' => ' ' :: stripTagsGo f rest'
     | none => '<' :: stripTagsGo f rest)
  | f + 1, c :: rest => c :: stripTagsGo f rest

/-- parse.py `_WS_RE.sub(" ", ·)`: collapse each whitespace run to one space. -/
def collapseWs : List Char → List Char
  | [] => []
  | c :: rest =>
    if c.isWhitespace then
      (match rest with
       | [] => [' ']
       | d :: _ => if d.isWhitespace then collapseWs rest else ' ' :: collapseWs rest)
    else c :: collapseWs rest

/-- Python `str.rstrip()` on a character list. -/
def rstripChars (cs : List Char) : List Char :=
  (cs.reverse.dropWhile Char.isWhitespace).reverse

/-- parse.py `_clean_text`: strip HTML tags, collapse whitespace, strip,
and optionally truncate with a trailing ellipsis. -/
def clean_text (text : String) (maxLen : Option Nat) : String :=
  if text = "" then ""
  else
    let t := stripChars (collapseWs (stripTagsGo text.toList.length text.toList))
    match maxLen with
    | some m =>
      if t.length > m then String.mk (rstripChars (t.take (m - 1)) ++ ['…'])
      else String.mk t
    | none => String.mk t

/-- parse.py raw ISBNdb book payload, restricted to the identifier and
title keys that the checksum-gate claims read. -/
structure RawBook where
  isbn13 : String
  isbn_13 : String
  isbn : String
  isbn10 : String
  isbn_10 : String
  title : String
deriving DecidableEq

/-- parse.py `parse_book`, identifier and title portion: normalize the
first truthy ISBN-13 (resp. ISBN-10) key, blank it when the checksum
fails, and clean the title text. Returns `(isbn13, isbn10, title)`. -/
def parse_book (book : RawBook) : String × String × String :=
  let i13 := normalize_isbn (pyOr (pyOr book.isbn13 book.isbn_13) book.isbn)
  let i10 := normalize_isbn (pyOr book.isbn10 book.isbn_10)
  let i13 := if i13 ≠ "" && !(is_valid_isbn13 i13) then "" else i13
  let i10 := if i10 ≠ "" && !(is_valid_isbn10 i10) then "" else i10
  (i13, i10, clean_text book.title none)

/-- harvest.py worker lines 409-521, one item of one page: parse, skip on
empty identifier, skip on short title, skip below the relevance
threshold, otherwise upsert under the parsed ISBN-13. The relevance
scorer `js` and the row constructor `mk` (which assembles the `BookRow`
with `seen_count = 1`) are collaborator parameters. -/
def process_item (min_score : Int) (js : RawBook → Int)
    (mk : RawBook → String → String → String → BookRow)
    (mergeFn : BookRow → BookRow → BookRow)
    (st : RowStoreFun) (b : RawBook) : RowStoreFun :=
  let parsed := parse_book b
  let i13 := parsed.1
  let i10 := parsed.2.1
  let title := parsed.2.2
  if i13 = "" then st
  else if title = "" || title.length < 3 then st
  else if js b < min_score then st
  else store_upsert st i13 (mk b i13 i10 title) mergeFn

/-- harvest.py worker: process the items of a page in order. -/
def process_items (min_score : Int) (js : RawBook → Int)
    (mk : RawBook → String → String → String → BookRow)
    (mergeFn : BookRow → BookRow → BookRow)
    (st : RowStoreFun) (books : List RawBook) : RowStoreFun :=
  books.foldl (process_item min_score js mk mergeFn) st

/-- http_client.py error classes: `ISBNdbQuotaError` (quota) is a subclass
of `ISBNdbError` (api). -/
inductive FetchErr where
  | quota (msg : String)
  | api (msg : String)
deriving DecidableEq

/-- One remote response as `isbndb_get` classifies it: a parsed body with
books; a body whose message matches `Daily quota ... reached` (checked
before any status handling); a retryable status (429/5xx) or
network/JSON failure; or an auth status. -/
inductive HttpAttempt where
  | ok (books : List RawBook)
  | quotaMsg (msg : String)
  | retryable
  | auth401
  | auth403 (msg : String)
deriving DecidableEq

/-- http_client.py `isbndb_get` over a script of responses, with the
1-based attempt counter of its `for attempt in range(1, retries + 2)`
loop. Returns the outcome and the number of requests actually issued.
Quota detection raises at once; retryable outcomes loop while
`attempt ≤ retries`; auth statuses raise at once. -/
def isbndb_get_go (retries : Nat) : List HttpAttempt → Nat →
    Except FetchErr (List RawBook) × Nat
  | [], _ => (Except.error (FetchErr.api "Request failed"), 0)
  | a :: rest, attempt =>
    match a with
    | HttpAttempt.ok books => (Except.ok books, 1)
    | HttpAttempt.quotaMsg m => (Except.error (FetchErr.quota m), 1)
    | HttpAttempt.auth401 =>
      (Except.error (FetchErr.api "401 Unauthorized (check ISBNDB_API_KEY and plan access)"), 1)
    | HttpAttempt.auth403 m => (Except.error (FetchErr.api ("403 Forbidden: " ++ m)), 1)
    | HttpAttempt.retryable =>
      if attempt ≤ retries then
        let r := isbndb_get_go retries rest (attempt + 1)
        (r.1, r.2 + 1)
      else (Except.error (FetchErr.api "Request failed"), 1)

/-- http_client.py `isbndb_get`: run the retry loop from attempt 1. -/
def isbndb_get (retries : Nat) (script : List HttpAttempt) :
    Except FetchErr (List RawBook) × Nat :=
  isbndb_get_go retries script 1

/-- The argument tuple a worker passes to http_client.py
`build_task_request` for one page request. -/
structure ReqSpec where
  endpoint : String
  query : String
  page : Nat
  page_size : Nat
  lang : Option String
deriving DecidableEq

/-- Result of one page-fetch step of the worker: the data or error, the
run-wide quota flag contribution, the checkpoint events written, and the
requests issued. -/
structure PageFetchOut where
  result : Except FetchErr (List RawBook)
  quota_flag : Bool
  events : List CkEvent
  requests : List ReqSpec

/-- harvest.py worker lines 341-401, one page fetch with its
`try/except` structure: a quota error from the primary call sets the
quota stop flag and writes a `quota_exhausted` event; any other
`ISBNdbError` on a publisher/subject endpoint whose message does not
contain `"401"` triggers one fallback call of the same query and page on
the `search` endpoint after a `task_fallback` event; everything else
re-raises. A quota error raised by the fallback call is an exception
inside the `ISBNdbError` handler, so it reaches the outer task-level
handler without touching the flag. -/
def page_fetch (tid : String) (t : TaskSpec) (page page_size : Nat)
    (lang : Option String) (primary fallback : Except FetchErr (List RawBook)) :
    PageFetchOut :=
  let preq : ReqSpec := ⟨t.endpoint, t.query, page, page_size, lang⟩
  match primary with
  | Except.ok d => ⟨Except.ok d, false, [], [preq]⟩
  | Except.error (FetchErr.quota m) =>
    ⟨Except.error (FetchErr.quota m), true, [⟨"quota_exhausted", tid, m⟩], [preq]⟩
  | Except.error (FetchErr.api m) =>
    if (t.endpoint = "publisher" || t.endpoint = "subject") && !(strContains m "401") then
      ⟨fallback, false, [⟨"task_fallback", tid, m⟩],
        [preq, ⟨"search", t.query, page, page_size, lang⟩]⟩
    else ⟨Except.error (FetchErr.api m), false, [], [preq]⟩

/-- harvest.py `Harvester.should_stop`: quota flag, elapsed time budget,
or stop-file sentinel. -/
def should_stop (quota_flag elapsed_exceeded stop_file_present : Bool) : Bool :=
  quota_flag || elapsed_exceeded || stop_file_present

/-- harvest.py worker lines 327-331: before taking from the rate limiter
and issuing a page request, the worker re-checks the stop condition and
raises without any request when it holds. -/
def worker_page_step (stop : Bool) (req : ReqSpec) : Option ReqSpec :=
  if stop then none else some req

/-- export_full.py field order of the full CSV. -/
def csv_fieldnames : List String :=
  ["isbn13", "isbn10", "title", "title_long", "authors", "date_published",
   "publisher", "language", "subjects", "pages", "format", "synopsis",
   "overview", "cover_url", "cover_url_original", "cover_expires_at",
   "s3_cover_key", "cloudfront_cover_url", "bookshop_url",
   "bookshop_affiliate_url", "jewish_score", "fiction_flag",
   "popularity_proxy", "rank_score", "matched_terms", "seen_count",
   "sources", "shopify_tags", "task_endpoint", "task_group", "task_query",
   "page"]

/-- The cell values of one record, in `csv_fieldnames` order (numeric
fields rendered by `toString`; the exact numeral rendering is not load
bearing for any claim). -/
def book_row_cells (r : BookRow) : List String :=
  [r.isbn13, r.isbn10, r.title, r.title_long, r.authors, r.date_published,
   r.publisher, r.language, r.subjects, r.pages, r.format, r.synopsis,
   r.overview, r.cover_url, r.cover_url_original, toString r.cover_expires_at,
   r.s3_cover_key, r.cloudfront_cover_url, r.bookshop_url,
   r.bookshop_affiliate_url, toString r.jewish_score, toString r.fiction_flag,
   toString r.popularity_proxy, toString r.rank_score, r.matched_terms,
   toString r.seen_count, r.sources, r.shopify_tags, r.task_endpoint,
   r.task_group, r.task_query, toString r.page]

/-- Minimal CSV cell quoting of the `csv` module: quote cells holding a
comma, a quote, or a line break, doubling inner quotes. -/
def csv_escape (s : String) : String :=
  if s.toList.any (fun c => c = ',' || c = '"' || c = '\n' || c = '\r') then
    "\x22" ++ String.mk ((s.toList.map
      (fun c => if c = '"' then ['"', '"'] else [c])).flatten) ++ "\x22"
  else s

/-- One CSV line. -/
def csv_line (cells : List String) : String :=
  pyJoin ',' (cells.map csv_escape)

/-- export_full.py `write_full_csv`: the lines of the produced file —
always the header, then one line per record. -/
def write_full_csv_lines (rows : List BookRow) : List String :=
  csv_line csv_fieldnames :: rows.map (fun r => csv_line (book_row_cells r))

/-- The durable-output side of the filesystem: the output path and the
temporary file next to it. -/
structure FsState where
  output : Option (List String)
  temp : Option (List String)
deriving DecidableEq

/-- export_full.py `atomic_write_csv` as a trace of filesystem states:
start, temporary file fully written, `os.replace` of the temporary file
over the output path (atomic rename). -/
def atomic_write_csv (content : List String) (fs : FsState) : List FsState :=
  [fs, ⟨fs.output, some content⟩, ⟨some content, none⟩]

/-- harvest.py `Harvester.run` lines 612-614: after the worker pool and
snapshotter are shut down, the final snapshot of the row store is always
written through `write_full_csv`, even when it is empty. -/
def run_final_write (snapshot_rows : List BookRow) (fs : FsState) : List FsState :=
  atomic_write_csv (write_full_csv_lines snapshot_rows) fs

/-- http_client.py `TokenBucket` state (floats as `ℚ`). -/
structure TokenBucketState where
  rate : ℚ
  capacity : ℚ
  tokens : ℚ
deriving DecidableEq

/-- http_client.py `TokenBucket.__init__`: clamp the rate to at least
0.01 and the capacity to at least 1; start full. -/
def tokenBucketInit (rate_per_sec : ℚ) (burst : Int) : TokenBucketState :=
  let rate := max (1 / 100 : ℚ) rate_per_sec
  let capacity : Int := max 1 burst
  ⟨rate, (capacity : ℚ), (capacity : ℚ)⟩

/-- http_client.py `TokenBucket.take`, the refill of one loop iteration:
add `elapsed · rate` tokens, capped at capacity. -/
def tokenBucketRefill (b : TokenBucketState) (elapsed : ℚ) : TokenBucketState :=
  { b with tokens := min b.capacity (b.tokens + elapsed * b.rate) }

/-- One iteration of `TokenBucket.take`: refill, then either debit `n`
and succeed or leave the state for the next iteration. -/
def tokenBucketTakeStep (b : TokenBucketState) (n elapsed : ℚ) :
    TokenBucketState × Bool :=
  let b2 := tokenBucketRefill b elapsed
  if n ≤ b2.tokens then ({ b2 with tokens := b2.tokens - n }, true)
  else (b2, false)

/-- http_client.py `TokenBucket.take`, the sleep bound of a failed
iteration: `min 0.25 (max 0.01 ((n - tokens) / rate))`. -/
def tokenBucketSleep (b : TokenBucketState) (n : ℚ) : ℚ :=
  min (1 / 4 : ℚ) (max (1 / 100 : ℚ) ((n - b.tokens) / b.rate))

/-- harvest.py worker line 515-521 repeated: upsert a sequence of
observations (each keyed by its own `isbn13`, merged with `merge_row`)
into the row store, in arrival order. -/
def upsert_observations (rank : Int → ℚ → Int → Bool → Int → ℚ)
    (tags : String → String → String → String) (fiction_only : Bool)
    (st : RowStoreFun) (rows : List BookRow) : RowStoreFun :=
  rows.foldl (fun s r => store_upsert s r.isbn13 r (merge_row rank tags fiction_only)) st

/-- Specification vocabulary for the amended merge-commutativity claim:
the winner `w` masks none of the loser `l`'s sticky/fallback fields —
wherever `w` is empty (falsy), `l` is empty too, so the `pick.x or
existing.x` fallbacks of `merge_row` cannot depend on arrival order. -/
def sticky_compatible (w l : BookRow) : Prop :=
  (w.subtitle = "" → l.subtitle = "") ∧
  (w.edition = "" → l.edition = "") ∧
  (w.dimensions = "" → l.dimensions = "") ∧
  (w.cover_url = "" → l.cover_url = "") ∧
  (w.cover_url_original = "" → l.cover_url_original = "") ∧
  (w.s3_cover_key = "" → l.s3_cover_key = "") ∧
  (w.cloudfront_cover_url = "" → l.cloudfront_cover_url = "") ∧
  (w.cover_expires_at = 0 → l.cover_expires_at = 0) ∧
  (w.subjects = "" → l.subjects = "") ∧
  (w.matched_terms = "" → l.matched_terms = "") ∧
  (w.publisher = "" → l.publisher = "")

instance (w l : BookRow) : Decidable (sticky_compatible w l) := by
  unfold sticky_compatible
  infer_instance

/-- A trivial scoring collaborator used for concrete evaluations. -/
def rank0 : Int → ℚ → Int → Bool → Int → ℚ := fun _ _ _ _ _ => 0

/-- A trivial tag-builder collaborator used for concrete evaluations. -/
def tags0 : String → String → String → String := fun _ _ _ => ""

/-- A concrete observation as the worker builds one (`seen_count = 1`,
`sources` initialised from the task query). -/
def baseRow : BookRow :=
  { isbn10 := "", isbn13 := "9780306406157", title := "Aleph",
    title_long := "", subtitle := "", edition := "", dimensions := "",
    authors := "", date_published := "", publisher := "", language := "",
    subjects := "", pages := "", format := "", synopsis := "",
    overview := "", cover_url := "", cover_url_original := "",
    cover_expires_at := 0, s3_cover_key := "", cloudfront_cover_url := "",
    bookshop_url := "", bookshop_affiliate_url := "", jewish_score := 5,
    fiction_flag := 0, popularity_proxy := 0, rank_score := 0,
    matched_terms := "", seen_count := 1, sources := "tanakh",
    shopify_tags := "", task_endpoint := "search", task_query := "tanakh",
    task_group := "g", page := 1 }

/-- Same identifier and tie-break key as `baseRow`, different title. -/
def rowB : BookRow := { baseRow with title := "Bet" }

/-- Same identifier as `baseRow`, strictly higher relevance score, a
different provenance query. -/
def rowC : BookRow :=
  { baseRow with
    title := "Gimel"
    jewish_score := 7
    task_query := "talmud"
    sources := "talmud" }

/-- A concrete raw ISBNdb item with a checksum-valid identifier. -/
def rawW : RawBook := ⟨"9780306406157", "", "", "", "", "Jewish History"⟩

/-- A concrete raw ISBNdb item with a wrong check digit. -/
def rawBad : RawBook := ⟨"9780306406158", "", "", "", "", "Jewish History"⟩

/-- A trivial relevance scorer for concrete evaluations. -/
def js0 : RawBook → Int := fun _ => 0

/-- A trivial row constructor for concrete evaluations. -/
def mk0 : RawBook → String → String → String → BookRow :=
  fun _ i13 _ t => { baseRow with isbn13 := i13, title := t }

/-- C4 counterexample: with twelve existing source keys, merging a new
distinct key returns the list unchanged — the new key is dropped and the
oldest entry `"a"` is kept, because `_merge_sources` truncates with
`parts[:max_sources]` after appending. -/
theorem merge_sources_cap_counterexample :
    merge_sources "a|b|c|d|e|f|g|h|i|j|k|l" "m" 12 = "a|b|c|d|e|f|g|h|i|j|k|l" ∧
    strContains (merge_sources "a|b|c|d|e|f|g|h|i|j|k|l" "m" 12) "m" = false := by
  decide

/-- C4 amended: `_merge_sources` appends an absent provenance key but caps
the list by keeping the FIRST (oldest) `12` entries, so when the existing
list already holds 12 entries a new distinct key leaves it unchanged. -/
theorem merge_sources_cap_amended (existing ns : String) (parts : List String)
    (hsplit : (pySplit existing '|').filter (fun p => p ≠ "") = parts)
    (hlen : parts.length = 12) (hstrip : pyStrip ns = ns) (hne : ns ≠ "")
    (hnotmem : ns ∉ parts) :
    merge_sources existing ns 12 = pyJoin '|' parts := by
  unfold merge_sources
  rw [hstrip]
  rw [if_neg hne]
  rw [hsplit]
  have hc : parts.contains ns = false := by simpa using hnotmem
  simp only [hc, Bool.false_eq_true, if_false]
  rw [List.take_left' hlen]

/-- C4 witness. -/
theorem merge_sources_cap_amended_witness :
    merge_sources "a|b|c|d|e|f|g|h|i|j|k|l" "m" 12 =
      pyJoin '|' ["a","b","c","d","e","f","g","h","i","j","k","l"] :=
  merge_sources_cap_amended _ _ _ (by decide) (by decide) (by decide)
    (by decide) (by decide)

/-- C5: resume idempotence. If the completed set read from the checkpoint
log holds exactly the ids of `t1` and `t3`, a resumed run over the task
list `[t1, t2, t3]` schedules exactly `[t2]`; in general a task is
scheduled iff its id has no `task_done` event in the log. -/
theorem resume_idempotence (tid : TaskSpec → String) (t1 t2 t3 : TaskSpec)
    (events : List CkEvent)
    (hcomp : ∀ s, s ∈ read_completed_tasks events ↔ (s = tid t1 ∨ s = tid t3))
    (h21 : tid t2 ≠ tid t1) (h23 : tid t2 ≠ tid t3) :
    run_work_set tid [t1, t2, t3] events true = [t2] ∧
    (∀ t, t ∈ run_work_set tid [t1, t2, t3] events true ↔
      (t ∈ [t1, t2, t3] ∧ tid t ∉ read_completed_tasks events)) := by
  have hwork : run_work_set tid [t1, t2, t3] events true =
      [t1, t2, t3].filter (fun t => !((read_completed_tasks events).contains (tid t))) := rfl
  have mem1 : tid t1 ∈ read_completed_tasks events := (hcomp (tid t1)).mpr (Or.inl rfl)
  have mem3 : tid t3 ∈ read_completed_tasks events := (hcomp (tid t3)).mpr (Or.inr rfl)
  have mem2 : tid t2 ∉ read_completed_tasks events := by
    intro h
    rcases (hcomp (tid t2)).mp h with h' | h'
    · exact h21 h'
    · exact h23 h'
  refine ⟨?_, ?_⟩
  · rw [hwork]
    simp [List.filter_cons, mem1, mem2, mem3]
  · intro t
    rw [hwork]
    simp [List.mem_filter]

/-- C5 witness. -/
theorem resume_idempotence_witness :
    run_work_set (fun t => t.query)
      [⟨"search", "q1", "g"⟩, ⟨"search", "q2", "g"⟩, ⟨"search", "q3", "g"⟩]
      [⟨"task_done", "q1", ""⟩, ⟨"task_done", "q3", ""⟩] true =
      [⟨"search", "q2", "g"⟩] :=
  (resume_idempotence (fun t => t.query) ⟨"search", "q1", "g"⟩ ⟨"search", "q2", "g"⟩
    ⟨"search", "q3", "g"⟩ [⟨"task_done", "q1", ""⟩, ⟨"task_done", "q3", ""⟩]
    (by intro s; simp [read_completed_tasks]) (by decide) (by decide)).1

/-- C3 counterexample: a task whose page loop raises writes `task_error`
followed by the terminal `task_incomplete` — not a type that
`read_completed_tasks` counts — and the task is still in the next run's
work set, contradicting the claim that it is marked done and excluded. -/
theorem error_task_retried_counterexample :
    (worker_terminal_events true "q1" "boom").map (fun e => e.type) =
      ["task_error", "task_incomplete"] ∧
    read_completed_tasks (worker_terminal_events true "q1" "boom") = [] ∧
    run_work_set (fun t => t.query) [⟨"search", "q1", "g"⟩]
      (worker_terminal_events true "q1" "boom") true = [⟨"search", "q1", "g"⟩] := by
  decide

/-- C3 amended: a task that terminates via an unrecovered error writes
`task_error` then `task_incomplete`; `read_completed_tasks` counts only
`task_done`, so the errored task is NOT excluded from the next resumed
run's work set — it will be retried. -/
theorem error_task_retried_amended (tid : TaskSpec → String) (t : TaskSpec)
    (msg : String) :
    read_completed_tasks (worker_terminal_events true (tid t) msg) = [] ∧
    run_work_set tid [t] (worker_terminal_events true (tid t) msg) true = [t] := by
  constructor
  · simp [worker_terminal_events, read_completed_tasks]
  · simp [worker_terminal_events, read_completed_tasks, run_work_set]

/-- Accumulation step for the seen-count argument: if the store already
holds the key with seen count `c ≥ 1`, upserting `rows` observations of
that key (each with `seen_count = 1`) yields seen count `c + rows.length`. -/
theorem upsert_observations_seen_count_aux
    (rank : Int → ℚ → Int → Bool → Int → ℚ)
    (tags : String → String → String → String) (fo : Bool) (k : String)
    (rows : List BookRow) : ∀ (st : RowStoreFun) (e : BookRow) (c : Int),
    st k = some e → e.seen_count = c → 1 ≤ c →
    (∀ r ∈ rows, r.isbn13 = k ∧ r.seen_count = 1) →
    ∃ m, upsert_observations rank tags fo st rows k = some m ∧
      m.seen_count = c + rows.length := by
  induction rows with
  | nil =>
    intro st e c h1 h2 _ _
    exact ⟨e, by simpa [upsert_observations] using h1, by simp [h2]⟩
  | cons r rest ih =>
    intro st e c h1 h2 h3 hall
    have hk : r.isbn13 = k := (hall r (by simp)).1
    have hst2 : store_upsert st r.isbn13 r (merge_row rank tags fo) k =
        some (merge_row rank tags fo e r) := by
      simp [store_upsert, hk, h1]
    have hseen : (merge_row rank tags fo e r).seen_count = c + 1 := by
      have hs : (merge_row rank tags fo e r).seen_count = max 1 e.seen_count + 1 := rfl
      rw [hs, h2, max_eq_right h3]
    obtain ⟨m, hm, hmseen⟩ := ih (store_upsert st r.isbn13 r (merge_row rank tags fo))
      (merge_row rank tags fo e r) (c + 1) hst2 hseen (by linarith)
      (fun r' hr' => hall r' (by simp [hr']))
    refine ⟨m, ?_, ?_⟩
    · simpa [upsert_observations, List.foldl] using hm
    · rw [hmseen]
      simp only [List.length_cons]
      push_cast
      ring

/-- C7: seen-count monotonicity. Upserting `N ≥ 1` observations of one
identifier (each created with `seen_count = 1`) into an empty store,
duplicates combined by `merge_row`, leaves the stored record with
`seen_count = N`, for any scoring/tag collaborators and policy. -/
theorem seen_count_monotonicity (rank : Int → ℚ → Int → Bool → Int → ℚ)
    (tags : String → String → String → String) (fo : Bool) (k : String)
    (rows : List BookRow) (hne : rows ≠ [])
    (hall : ∀ r ∈ rows, r.isbn13 = k ∧ r.seen_count = 1) :
    ∃ m, upsert_observations rank tags fo emptyStore rows k = some m ∧
      m.seen_count = rows.length := by
  obtain ⟨r, rest, rfl⟩ := List.exists_cons_of_ne_nil hne
  have hk : r.isbn13 = k := (hall r (by simp)).1
  have hs1 : r.seen_count = 1 := (hall r (by simp)).2
  have hst1 : store_upsert emptyStore r.isbn13 r (merge_row rank tags fo) k =
      some r := by
    simp [store_upsert, emptyStore, hk]
  obtain ⟨m, hm, hmseen⟩ := upsert_observations_seen_count_aux rank tags fo k rest
    (store_upsert emptyStore r.isbn13 r (merge_row rank tags fo)) r 1 hst1 hs1
    le_rfl (fun r' hr' => hall r' (by simp [hr']))
  refine ⟨m, ?_, ?_⟩
  · simpa [upsert_observations, List.foldl] using hm
  · rw [hmseen]
    simp only [List.length_cons]
    push_cast
    ring

/-- C7 witness: two observations of `9780306406157` leave `seen_count = 2`. -/
theorem seen_count_monotonicity_witness :
    ∃ m, upsert_observations rank0 tags0 false emptyStore [baseRow, rowB]
      "9780306406157" = some m ∧ m.seen_count = ([baseRow, rowB] : List BookRow).length :=
  seen_count_monotonicity rank0 tags0 false "9780306406157" [baseRow, rowB]
    (by decide) (by decide)

/-- C10: token-bucket safety. The constructor clamps the rate to at least
0.01 (so the shortfall division `(n - tokens) / rate` never divides by
zero) and the capacity to at least 1, starting full; and one `take`
iteration with `0 < n ≤ capacity` from a well-formed state keeps
`0 ≤ tokens ≤ capacity` and, on success, debits exactly `n`. -/
theorem token_bucket_safety (rps : ℚ) (burst : Int) (b : TokenBucketState)
    (n elapsed : ℚ) (hrate : 0 < b.rate) (htok : 0 ≤ b.tokens)
    (hcap : b.tokens ≤ b.capacity) (hn : 0 < n) (hncap : n ≤ b.capacity)
    (helapsed : 0 ≤ elapsed) :
    (1 / 100 : ℚ) ≤ (tokenBucketInit rps burst).rate ∧
    (1 : ℚ) ≤ (tokenBucketInit rps burst).capacity ∧
    (tokenBucketInit rps burst).tokens = (tokenBucketInit rps burst).capacity ∧
    (tokenBucketInit rps burst).rate ≠ 0 ∧
    (tokenBucketTakeStep b n elapsed).1.capacity = b.capacity ∧
    0 ≤ (tokenBucketTakeStep b n elapsed).1.tokens ∧
    (tokenBucketTakeStep b n elapsed).1.tokens ≤ b.capacity ∧
    ((tokenBucketTakeStep b n elapsed).2 = true →
      (tokenBucketTakeStep b n elapsed).1.tokens =
        (tokenBucketRefill b elapsed).tokens - n) := by
  have hinit_rate : (1 / 100 : ℚ) ≤ (tokenBucketInit rps burst).rate :=
    le_max_left _ _
  have hinit_cap : (1 : ℚ) ≤ (tokenBucketInit rps burst).capacity := by
    show (1 : ℚ) ≤ ((max 1 burst : Int) : ℚ)
    exact_mod_cast le_max_left (1 : Int) burst
  have hrefill_le : (tokenBucketRefill b elapsed).tokens ≤ b.capacity :=
    min_le_left _ _
  have hrefill_nonneg : 0 ≤ (tokenBucketRefill b elapsed).tokens := by
    have hplus : 0 ≤ b.tokens + elapsed * b.rate := by positivity
    have hc : (0 : ℚ) ≤ b.capacity := le_trans htok hcap
    exact le_min hc hplus
  have hstep : tokenBucketTakeStep b n elapsed =
      (if n ≤ (tokenBucketRefill b elapsed).tokens then
        ({ tokenBucketRefill b elapsed with
            tokens := (tokenBucketRefill b elapsed).tokens - n }, true)
       else (tokenBucketRefill b elapsed, false)) := rfl
  refine ⟨hinit_rate, hinit_cap, rfl, ?_, ?_, ?_, ?_, ?_⟩
  · intro h0
    rw [h0] at hinit_rate
    norm_num at hinit_rate
  · rw [hstep]
    by_cases hs : n ≤ (tokenBucketRefill b elapsed).tokens
    · rw [if_pos hs]
      rfl
    · rw [if_neg hs]
      rfl
  · rw [hstep]
    by_cases hs : n ≤ (tokenBucketRefill b elapsed).tokens
    · rw [if_pos hs]
      show 0 ≤ (tokenBucketRefill b elapsed).tokens - n
      linarith
    · rw [if_neg hs]
      exact hrefill_nonneg
  · rw [hstep]
    by_cases hs : n ≤ (tokenBucketRefill b elapsed).tokens
    · rw [if_pos hs]
      show (tokenBucketRefill b elapsed).tokens - n ≤ b.capacity
      linarith
    · rw [if_neg hs]
      exact hrefill_le
  · rw [hstep]
    by_cases hs : n ≤ (tokenBucketRefill b elapsed).tokens
    · rw [if_pos hs]
      intro _
      rfl
    · rw [if_neg hs]
      intro hok
      simp at hok

/-- C10 witness: the clamped bucket built from rate 0 and burst 0, taking
`n = 1` with no elapsed time. -/
theorem token_bucket_safety_witness :
    (1 / 100 : ℚ) ≤ (tokenBucketInit 0 0).rate ∧
    (1 : ℚ) ≤ (tokenBucketInit 0 0).capacity ∧
    (tokenBucketInit 0 0).tokens = (tokenBucketInit 0 0).capacity ∧
    (tokenBucketInit 0 0).rate ≠ 0 ∧
    (tokenBucketTakeStep (tokenBucketInit 0 0) 1 0).1.capacity =
      (tokenBucketInit 0 0).capacity ∧
    0 ≤ (tokenBucketTakeStep (tokenBucketInit 0 0) 1 0).1.tokens ∧
    (tokenBucketTakeStep (tokenBucketInit 0 0) 1 0).1.tokens ≤
      (tokenBucketInit 0 0).capacity ∧
    ((tokenBucketTakeStep (tokenBucketInit 0 0) 1 0).2 = true →
      (tokenBucketTakeStep (tokenBucketInit 0 0) 1 0).1.tokens =
        (tokenBucketRefill (tokenBucketInit 0 0) 0).tokens - 1) :=
  token_bucket_safety 0 0 (tokenBucketInit 0 0) 1 0
    (by simp [tokenBucketInit, max_def])
    (by simp [tokenBucketInit, max_def])
    (by simp [tokenBucketInit, max_def])
    (by norm_num)
    (by simp [tokenBucketInit, max_def])
    le_rfl

/-- C9: unconditional final output. The run's final write always goes
through `atomic_write_csv` — temporary file first, then an atomic rename
— and its content is the CSV header followed by one line per stored
record (header-only when the snapshot is empty); at no intermediate
state is the output path anything but the old file or the complete new
one. -/
theorem final_output_always_complete (rows : List BookRow) (fs : FsState) :
    ∃ final, (run_final_write rows fs).getLast? = some final ∧
      final.output = some (write_full_csv_lines rows) ∧ final.temp = none ∧
      (write_full_csv_lines rows).length = rows.length + 1 ∧
      (write_full_csv_lines rows).head? = some (csv_line csv_fieldnames) ∧
      (rows = [] → write_full_csv_lines rows = [csv_line csv_fieldnames]) ∧
      (∀ s ∈ run_final_write rows fs,
        s.output = fs.output ∨ s.output = some (write_full_csv_lines rows)) := by
  refine ⟨⟨some (write_full_csv_lines rows), none⟩, rfl, rfl, rfl, ?_, rfl, ?_, ?_⟩
  · simp [write_full_csv_lines]
  · intro h
    simp [h, write_full_csv_lines]
  · intro s hs
    simp only [run_final_write, atomic_write_csv, List.mem_cons,
      List.mem_singleton, List.not_mem_nil, or_false] at hs
    rcases hs with rfl | rfl | rfl
    · exact Or.inl rfl
    · exact Or.inl rfl
    · exact Or.inr rfl

/-- C9 witness: the empty snapshot still yields a header-only file. -/
theorem final_output_always_complete_witness :
    ∃ final, (run_final_write [] ⟨none, none⟩).getLast? = some final ∧
      final.output = some (write_full_csv_lines []) ∧ final.temp = none ∧
      (write_full_csv_lines ([] : List BookRow)).length = ([] : List BookRow).length + 1 ∧
      (write_full_csv_lines ([] : List BookRow)).head? = some (csv_line csv_fieldnames) ∧
      (([] : List BookRow) = [] → write_full_csv_lines [] = [csv_line csv_fieldnames]) ∧
      (∀ s ∈ run_final_write [] ⟨none, none⟩,
        s.output = (⟨none, none⟩ : FsState).output ∨
          s.output = some (write_full_csv_lines [])) :=
  final_output_always_complete [] ⟨none, none⟩

/-- parse.py gate: the ISBN-13 component returned by `parse_book` is
either empty or checksum-valid — any wrong-length, wrong-check-digit or
non-numeric identifier is blanked. -/
theorem parse_book_isbn13_gate (b : RawBook) :
    (parse_book b).1 = "" ∨ is_valid_isbn13 (parse_book b).1 = true := by
  unfold parse_book
  by_cases h1 : normalize_isbn (pyOr (pyOr b.isbn13 b.isbn_13) b.isbn) = ""
  · left
    simp [h1]
  · by_cases h2 : is_valid_isbn13 (normalize_isbn (pyOr (pyOr b.isbn13 b.isbn_13) b.isbn)) = true
    · right
      simp [h1, h2]
    · left
      simp [h1, h2]

/-- One worker item step preserves the store invariant that every present
key is checksum-valid. -/
theorem process_item_key_valid (min_score : Int) (js : RawBook → Int)
    (mk : RawBook → String → String → String → BookRow)
    (mergeFn : BookRow → BookRow → BookRow) (st : RowStoreFun) (b : RawBook)
    (k : String) (hinv : ∀ k', st k' ≠ none → is_valid_isbn13 k' = true)
    (h : process_item min_score js mk mergeFn st b k ≠ none) :
    is_valid_isbn13 k = true := by
  unfold process_item at h
  by_cases h13 : (parse_book b).1 = ""
  · rw [if_pos h13] at h
    exact hinv k h
  · have hvalid : is_valid_isbn13 (parse_book b).1 = true :=
      (parse_book_isbn13_gate b).resolve_left h13
    rw [if_neg h13] at h
    split_ifs at h with ht hs
    · exact hinv k h
    · exact hinv k h
    · unfold store_upsert at h
      by_cases hk : k = (parse_book b).1
      · rw [hk]
        exact hvalid
      · rw [if_neg hk] at h
        exact hinv k h

/-- The store invariant extends over a whole page of items. -/
theorem process_items_key_valid (min_score : Int) (js : RawBook → Int)
    (mk : RawBook → String → String → String → BookRow)
    (mergeFn : BookRow → BookRow → BookRow) (raws : List RawBook) :
    ∀ (st : RowStoreFun), (∀ k, st k ≠ none → is_valid_isbn13 k = true) →
    ∀ k, process_items min_score js mk mergeFn st raws k ≠ none →
      is_valid_isbn13 k = true := by
  induction raws with
  | nil =>
    intro st hinv k h
    exact hinv k (by simpa [process_items] using h)
  | cons b rest ih =>
    intro st hinv k h
    have h' : process_items min_score js mk mergeFn
        (process_item min_score js mk mergeFn st b) rest k ≠ none := by
      simpa [process_items, List.foldl] using h
    exact ih (process_item min_score js mk mergeFn st b)
      (fun k' hk' => process_item_key_valid min_score js mk mergeFn st b k' hinv hk')
      k h'

/-- C6: checksum gate. Every key present in the row store after the
worker has processed any sequence of raw items from an empty store
satisfies `is_valid_isbn13`; and `parse_book` returns an empty ISBN-13
for every raw item whose identifier fails the checksum (wrong length,
wrong check digit, non-numeric payload), which the worker skips without
storing. -/
theorem checksum_gate (min_score : Int) (js : RawBook → Int)
    (mk : RawBook → String → String → String → BookRow)
    (mergeFn : BookRow → BookRow → BookRow) (raws : List RawBook) (k : String)
    (hmem : process_items min_score js mk mergeFn emptyStore raws k ≠ none) :
    is_valid_isbn13 k = true ∧
    (∀ b : RawBook, (parse_book b).1 = "" ∨
      is_valid_isbn13 (parse_book b).1 = true) := by
  refine ⟨?_, parse_book_isbn13_gate⟩
  exact process_items_key_valid min_score js mk mergeFn raws emptyStore
    (fun k' hk' => absurd rfl hk') k hmem

/-- C6 witness: a valid raw item is stored under its checksum-valid key;
the hypotheses are discharged by evaluation (the invalid `rawBad` would
be skipped, as `parse_book rawBad` has an empty identifier). -/
theorem checksum_gate_witness :
    is_valid_isbn13 "9780306406157" = true ∧
    (∀ b : RawBook, (parse_book b).1 = "" ∨
      is_valid_isbn13 (parse_book b).1 = true) :=
  checksum_gate 0 js0 mk0 (merge_row rank0 tags0 false) [rawW, rawBad]
    "9780306406157" (by decide)

/-- C8 counterexample: a 403 Forbidden response (an auth failure in the
claim's sense) on a publisher-endpoint task IS retried via the search
fallback, because the worker's guard only checks that the message does
not contain the substring `"401"`. -/
theorem endpoint_fallback_counterexample :
    (page_fetch "t1" ⟨"publisher", "Koren", "g"⟩ 2 20 none
      (Except.error (FetchErr.api
        "403 Forbidden (plan/endpoint blocked or key invalid for this endpoint)"))
      (Except.ok [])).requests =
      [⟨"publisher", "Koren", 2, 20, none⟩, ⟨"search", "Koren", 2, 20, none⟩] ∧
    (page_fetch "t1" ⟨"publisher", "Koren", "g"⟩ 2 20 none
      (Except.error (FetchErr.api
        "403 Forbidden (plan/endpoint blocked or key invalid for this endpoint)"))
      (Except.ok [])).events =
      [⟨"task_fallback", "t1",
        "403 Forbidden (plan/endpoint blocked or key invalid for this endpoint)"⟩] := by
  decide

/-- C8 amended: on a publisher/subject endpoint, a classified error whose
message does not contain `"401"` (which includes 403 auth failures) is
reissued with the same query and page against the `search` endpoint
after a `task_fallback` checkpoint event recording the reason; only
messages containing `"401"` are excluded from the fallback. -/
theorem endpoint_fallback_amended (tid : String) (t : TaskSpec)
    (page psz : Nat) (lang : Option String) (m : String)
    (fb : Except FetchErr (List RawBook))
    (hend : t.endpoint = "publisher" ∨ t.endpoint = "subject") :
    (strContains m "401" = false →
      (page_fetch tid t page psz lang (Except.error (FetchErr.api m)) fb).requests =
        [⟨t.endpoint, t.query, page, psz, lang⟩,
         ⟨"search", t.query, page, psz, lang⟩] ∧
      (page_fetch tid t page psz lang (Except.error (FetchErr.api m)) fb).events =
        [⟨"task_fallback", tid, m⟩] ∧
      (page_fetch tid t page psz lang (Except.error (FetchErr.api m)) fb).result = fb) ∧
    (strContains m "401" = true →
      (page_fetch tid t page psz lang (Except.error (FetchErr.api m)) fb).requests =
        [⟨t.endpoint, t.query, page, psz, lang⟩] ∧
      (page_fetch tid t page psz lang (Except.error (FetchErr.api m)) fb).events = [] ∧
      (page_fetch tid t page psz lang (Except.error (FetchErr.api m)) fb).result =
        Except.error (FetchErr.api m)) := by
  have hcond : (t.endpoint = "publisher" || t.endpoint = "subject") = true := by
    rcases hend with h | h <;> simp [h]
  constructor
  · intro hno
    simp [page_fetch, hcond, hno]
  · intro hyes
    simp [page_fetch, hcond, hyes]

/-- C8 witness: a plain 500-class failure on a subject endpoint falls
back; a 401 message does not. -/
theorem endpoint_fallback_amended_witness :
    (strContains "Request failed" "401" = false →
      (page_fetch "t2" ⟨"subject", "Talmud", "g"⟩ 1 20 none
        (Except.error (FetchErr.api "Request failed")) (Except.ok [])).requests =
        [⟨"subject", "Talmud", 1, 20, none⟩, ⟨"search", "Talmud", 1, 20, none⟩] ∧
      (page_fetch "t2" ⟨"subject", "Talmud", "g"⟩ 1 20 none
        (Except.error (FetchErr.api "Request failed")) (Except.ok [])).events =
        [⟨"task_fallback", "t2", "Request failed"⟩] ∧
      (page_fetch "t2" ⟨"subject", "Talmud", "g"⟩ 1 20 none
        (Except.error (FetchErr.api "Request failed")) (Except.ok [])).result =
        Except.ok []) ∧
    (strContains "Request failed" "401" = true →
      (page_fetch "t2" ⟨"subject", "Talmud", "g"⟩ 1 20 none
        (Except.error (FetchErr.api "Request failed")) (Except.ok [])).requests =
        [⟨"subject", "Talmud", 1, 20, none⟩] ∧
      (page_fetch "t2" ⟨"subject", "Talmud", "g"⟩ 1 20 none
        (Except.error (FetchErr.api "Request failed")) (Except.ok [])).events = [] ∧
      (page_fetch "t2" ⟨"subject", "Talmud", "g"⟩ 1 20 none
        (Except.error (FetchErr.api "Request failed")) (Except.ok [])).result =
        Except.error (FetchErr.api "Request failed")) :=
  endpoint_fallback_amended "t2" ⟨"subject", "Talmud", "g"⟩ 1 20 none
    "Request failed" (Except.ok []) (by decide)

/-- http_client.py `isbndb_get` never retries a quota signal: after `k`
transient attempts (still within the retry budget), a quota-matching
body ends the loop at once, with exactly `k + 1` requests issued. -/
theorem isbndb_get_go_quota_immediate (retries : Nat) (m : String)
    (rest : List HttpAttempt) (k : Nat) : ∀ attempt : Nat, attempt + k ≤ retries + 1 →
    isbndb_get_go retries
      (List.replicate k HttpAttempt.retryable ++ HttpAttempt.quotaMsg m :: rest)
      attempt = (Except.error (FetchErr.quota m), k + 1) := by
  induction k with
  | zero =>
    intro attempt _
    simp [isbndb_get_go]
  | succ k ih =>
    intro attempt h
    have ha : attempt ≤ retries := by omega
    rw [List.replicate_succ, List.cons_append]
    simp only [isbndb_get_go, if_pos ha]
    rw [ih (attempt + 1) (by omega)]

/-- C2 counterexample: on a publisher-endpoint task whose primary call
fails with an ordinary classified error, a quota-exhausted error raised
by the fallback search call propagates as the task's error WITHOUT the
run-wide quota stop flag being set (and without a `quota_exhausted`
checkpoint event): the exception is raised inside the `ISBNdbError`
handler, which the sibling `ISBNdbQuotaError` clause does not catch. -/
theorem quota_stop_counterexample :
    (page_fetch "t3" ⟨"publisher", "Mossad", "g"⟩ 1 20 none
      (Except.error (FetchErr.api "Request failed"))
      (Except.error (FetchErr.quota "Daily quota of calls reached"))).quota_flag
      = false ∧
    (page_fetch "t3" ⟨"publisher", "Mossad", "g"⟩ 1 20 none
      (Except.error (FetchErr.api "Request failed"))
      (Except.error (FetchErr.quota "Daily quota of calls reached"))).result =
      Except.error (FetchErr.quota "Daily quota of calls reached") ∧
    (page_fetch "t3" ⟨"publisher", "Mossad", "g"⟩ 1 20 none
      (Except.error (FetchErr.api "Request failed"))
      (Except.error (FetchErr.quota "Daily quota of calls reached"))).events.map
        (fun e => e.type) = ["task_fallback"] := by
  refine ⟨rfl, rfl, rfl⟩

/-- C2 amended: a quota error is never retried inside `isbndb_get`; a
quota error from the PRIMARY call sets the run-wide stop flag and writes
the `quota_exhausted` event, and a worker that observes the stop flag
issues no further request — but a quota error raised by the FALLBACK
call does not set the flag and only fails that task. -/
theorem quota_stop_amended (retries k : Nat) (m m2 : String)
    (rest : List HttpAttempt) (hk : k ≤ retries) (tid : String) (t : TaskSpec)
    (page psz : Nat) (lang : Option String)
    (fb : Except FetchErr (List RawBook)) (req : ReqSpec)
    (hend : t.endpoint = "publisher" ∨ t.endpoint = "subject")
    (hno401 : strContains m2 "401" = false) :
    isbndb_get retries
      (List.replicate k HttpAttempt.retryable ++ HttpAttempt.quotaMsg m :: rest) =
      (Except.error (FetchErr.quota m), k + 1) ∧
    (page_fetch tid t page psz lang (Except.error (FetchErr.quota m)) fb).quota_flag
      = true ∧
    (page_fetch tid t page psz lang (Except.error (FetchErr.quota m)) fb).events =
      [⟨"quota_exhausted", tid, m⟩] ∧
    (page_fetch tid t page psz lang (Except.error (FetchErr.api m2))
      (Except.error (FetchErr.quota m))).quota_flag = false ∧
    (page_fetch tid t page psz lang (Except.error (FetchErr.api m2))
      (Except.error (FetchErr.quota m))).result =
      Except.error (FetchErr.quota m) ∧
    worker_page_step true req = none := by
  have hcond : (t.endpoint = "publisher" || t.endpoint = "subject") = true := by
    rcases hend with h | h <;> simp [h]
  refine ⟨?_, rfl, rfl, ?_, ?_, rfl⟩
  · exact isbndb_get_go_quota_immediate retries m rest k 1 (by omega)
  · simp [page_fetch, hcond, hno401]
  · simp [page_fetch, hcond, hno401]

/-- C2 witness. -/
theorem quota_stop_amended_witness :
    isbndb_get 3
      (List.replicate 2 HttpAttempt.retryable ++
        HttpAttempt.quotaMsg "Daily quota of calls reached" :: []) =
      (Except.error (FetchErr.quota "Daily quota of calls reached"), 2 + 1) ∧
    (page_fetch "t4" ⟨"subject", "Midrash", "g"⟩ 1 20 none
      (Except.error (FetchErr.quota "Daily quota of calls reached"))
      (Except.ok [])).quota_flag = true ∧
    (page_fetch "t4" ⟨"subject", "Midrash", "g"⟩ 1 20 none
      (Except.error (FetchErr.quota "Daily quota of calls reached"))
      (Except.ok [])).events =
      [⟨"quota_exhausted", "t4", "Daily quota of calls reached"⟩] ∧
    (page_fetch "t4" ⟨"subject", "Midrash", "g"⟩ 1 20 none
      (Except.error (FetchErr.api "Request failed"))
      (Except.error (FetchErr.quota "Daily quota of calls reached"))).quota_flag
      = false ∧
    (page_fetch "t4" ⟨"subject", "Midrash", "g"⟩ 1 20 none
      (Except.error (FetchErr.api "Request failed"))
      (Except.error (FetchErr.quota "Daily quota of calls reached"))).result =
      Except.error (FetchErr.quota "Daily quota of calls reached") ∧
    worker_page_step true ⟨"search", "q", 1, 20, none⟩ = none :=
  quota_stop_amended 3 2 "Daily quota of calls reached" "Request failed" []
    (by decide) "t4" ⟨"subject", "Midrash", "g"⟩ 1 20 none (Except.ok [])
    ⟨"search", "q", 1, 20, none⟩ (by decide) (by decide)

/-- `pyOr` is idempotent. -/
theorem pyOr_self (x : String) : pyOr x x = x := by
  unfold pyOr
  split <;> rfl

/-- `pyOrInt` is idempotent. -/
theorem pyOrInt_self (x : Int) : pyOrInt x x = x := by
  unfold pyOrInt
  split <;> rfl

/-- When the first operand masks nothing (`x` empty forces `y` empty),
the Python fallback `x or y` is just `x`. -/
theorem sticky_pyOr (x y : String) (h : x = "" → y = "") : pyOr x y = x := by
  unfold pyOr
  by_cases hx : x = ""
  · rw [if_pos hx, h hx, hx]
  · rw [if_neg hx]

/-- Same as `sticky_pyOr` for the integer fallback. -/
theorem sticky_pyOrInt (x y : Int) (h : x = 0 → y = 0) : pyOrInt x y = x := by
  unfold pyOrInt
  by_cases hx : x = 0
  · rw [if_pos hx, h hx, hx]
  · rw [if_neg hx]

/-- The tie-break chain always returns one of its two arguments. -/
theorem merge_pick_eq_or (a b : BookRow) :
    merge_pick a b = b ∨ merge_pick a b = a := by
  unfold merge_pick
  split_ifs <;> simp

/-- When the two rows differ on the tie-break key (score, completeness,
rank score), the chain picks the same winner in either order. -/
theorem merge_pick_comm (a b : BookRow)
    (hkey : ¬(b.jewish_score = a.jewish_score ∧
      completeness b = completeness a ∧ b.rank_score = a.rank_score)) :
    merge_pick a b = merge_pick b a := by
  unfold merge_pick
  rcases lt_trichotomy a.jewish_score b.jewish_score with h | h | h
  · rw [if_pos (show b.jewish_score > a.jewish_score from h),
      if_neg (show ¬(a.jewish_score > b.jewish_score) by omega),
      if_neg (show ¬(a.jewish_score = b.jewish_score) by omega)]
  · rw [if_neg (show ¬(b.jewish_score > a.jewish_score) by omega),
      if_pos (show b.jewish_score = a.jewish_score from h.symm),
      if_neg (show ¬(a.jewish_score > b.jewish_score) by omega),
      if_pos (show a.jewish_score = b.jewish_score from h)]
    rcases Nat.lt_trichotomy (completeness a) (completeness b) with hc | hc | hc
    · rw [if_pos (show completeness b > completeness a from hc),
        if_neg (show ¬(completeness a > completeness b) by omega),
        if_neg (show ¬(completeness a = completeness b ∧
          a.rank_score > b.rank_score) by rintro ⟨he, _⟩; omega)]
    · rw [if_neg (show ¬(completeness b > completeness a) by omega),
        if_neg (show ¬(completeness a > completeness b) by omega)]
      have hrne : b.rank_score ≠ a.rank_score := by
        intro hr
        exact hkey ⟨h.symm, hc.symm, hr⟩
      rcases lt_trichotomy a.rank_score b.rank_score with hr | hr | hr
      · rw [if_pos (show completeness b = completeness a ∧
            b.rank_score > a.rank_score from ⟨hc.symm, hr⟩),
          if_neg (show ¬(completeness a = completeness b ∧
            a.rank_score > b.rank_score) by rintro ⟨_, hr2⟩; linarith)]
      · exact absurd hr.symm hrne
      · rw [if_neg (show ¬(completeness b = completeness a ∧
            b.rank_score > a.rank_score) by rintro ⟨_, hr2⟩; linarith),
          if_pos (show completeness a = completeness b ∧
            a.rank_score > b.rank_score from ⟨hc, hr⟩)]
    · rw [if_neg (show ¬(completeness b > completeness a) by omega),
        if_neg (show ¬(completeness b = completeness a ∧
          b.rank_score > a.rank_score) by rintro ⟨he, _⟩; omega),
        if_pos (show completeness a > completeness b from hc)]
  · rw [if_neg (show ¬(b.jewish_score > a.jewish_score) by omega),
      if_neg (show ¬(b.jewish_score = a.jewish_score) by omega),
      if_pos (show a.jewish_score > b.jewish_score from h)]

/-- Joining a single chunk is the identity. -/
theorem pyJoin_single (x : String) : pyJoin '|' [x] = x := by
  unfold pyJoin
  simp

/-- `merge_sources` on two clean single-key strings: keep the existing
key when the incoming key equals it, otherwise append. -/
theorem merge_sources_two_keys (x y : String) (hsy : pyStrip y = y)
    (hy : y ≠ "") (hx : x ≠ "") (hsx : pySplit x '|' = [x]) :
    merge_sources x y 12 = (if y = x then x else pyJoin '|' [x, y]) := by
  unfold merge_sources
  rw [hsy, if_neg hy, hsx]
  by_cases hyx : y = x
  · rw [if_pos hyx]
    have hfil : [x].filter (fun p => p ≠ "") = [x] := by simp [hx]
    rw [hfil]
    have hcon : [x].contains y = true := by simp [hyx]
    simp only [hcon, if_true]
    rw [List.take_of_length_le (by simp)]
    exact pyJoin_single x
  · rw [if_neg hyx]
    have hfil : [x].filter (fun p => p ≠ "") = [x] := by simp [hx]
    rw [hfil]
    have hcon : [x].contains y = false := by simp [hyx]
    simp only [hcon, Bool.false_eq_true, if_false]
    rw [List.take_of_length_le (by simp)]
    rfl

/-- C1 counterexample: two worker-built observations of the same
identifier that tie on the whole tie-break key (equal score,
completeness and rank score) but differ in title. Inserting one and
merging the other keeps the FIRST arrival's title, so the two arrival
orders disagree on a non-`sources` field — indeed here both orders even
produce identical `sources`. -/
theorem merge_commutativity_counterexample :
    baseRow.isbn13 = rowB.isbn13 ∧
    (store_upsert (store_upsert emptyStore "9780306406157" baseRow
        (merge_row rank0 tags0 false)) "9780306406157" rowB
        (merge_row rank0 tags0 false)) "9780306406157" =
      some (merge_row rank0 tags0 false baseRow rowB) ∧
    (merge_row rank0 tags0 false baseRow rowB).title = "Aleph" ∧
    (merge_row rank0 tags0 false rowB baseRow).title = "Bet" ∧
    (merge_row rank0 tags0 false baseRow rowB).sources =
      (merge_row rank0 tags0 false rowB baseRow).sources ∧
    merge_row rank0 tags0 false baseRow rowB ≠
      merge_row rank0 tags0 false rowB baseRow := by
  decide

/-- C1 amended: merge commutativity holds for two worker-built
observations of one identifier PROVIDED (i) they differ somewhere on the
tie-break key (jewish score, completeness, rank score) — a full tie
keeps whichever arrived first — and (ii) the winner masks none of the
loser's sticky/fallback fields; then the two arrival orders agree
field-for-field except `sources`, which holds the same two provenance
keys (as a set) in arrival order. -/
theorem merge_commutativity_amended
    (rank : Int → ℚ → Int → Bool → Int → ℚ)
    (tags : String → String → String → String) (fo : Bool) (a b : BookRow)
    (hid : a.isbn13 = b.isbn13)
    (hsa : a.seen_count = 1) (hsb : b.seen_count = 1)
    (hkey : ¬(b.jewish_score = a.jewish_score ∧
      completeness b = completeness a ∧ b.rank_score = a.rank_score))
    (hsta : sticky_compatible (merge_pick a b) a)
    (hstb : sticky_compatible (merge_pick a b) b)
    (hsrc_a : a.sources = a.task_query) (hsrc_b : b.sources = b.task_query)
    (hstrip_a : pyStrip a.task_query = a.task_query)
    (hstrip_b : pyStrip b.task_query = b.task_query)
    (hq_a : a.task_query ≠ "") (hq_b : b.task_query ≠ "")
    (hsplit_a : pySplit a.task_query '|' = [a.task_query])
    (hsplit_b : pySplit b.task_query '|' = [b.task_query]) :
    { merge_row rank tags fo a b with sources := "" } =
      { merge_row rank tags fo b a with sources := "" } ∧
    ((merge_row rank tags fo a b).sources =
        (merge_row rank tags fo b a).sources ∨
      ((merge_row rank tags fo a b).sources =
          pyJoin '|' [a.task_query, b.task_query] ∧
        (merge_row rank tags fo b a).sources =
          pyJoin '|' [b.task_query, a.task_query] ∧
        ({a.task_query, b.task_query} : Finset String) =
          {b.task_query, a.task_query})) := by
  have hw : merge_pick b a = merge_pick a b := (merge_pick_comm a b hkey).symm
  constructor
  · rcases merge_pick_eq_or a b with hpick | hpick
    · rw [hpick] at hw hsta hstb
      obtain ⟨s1, s2, s3, s4, s5, s6, s7, s8, s9, s10, s11⟩ := hsta
      simp only [merge_row, hpick, hw, hsa, hsb,
        sticky_pyOr _ _ s1, sticky_pyOr _ _ s2, sticky_pyOr _ _ s3,
        sticky_pyOr _ _ s4, sticky_pyOr _ _ s5, sticky_pyOr _ _ s6,
        sticky_pyOr _ _ s7, sticky_pyOrInt _ _ s8, sticky_pyOr _ _ s9,
        sticky_pyOr _ _ s10, sticky_pyOr _ _ s11, pyOr_self, pyOrInt_self]
    · rw [hpick] at hw hsta hstb
      obtain ⟨s1, s2, s3, s4, s5, s6, s7, s8, s9, s10, s11⟩ := hstb
      simp only [merge_row, hpick, hw, hsa, hsb,
        sticky_pyOr _ _ s1, sticky_pyOr _ _ s2, sticky_pyOr _ _ s3,
        sticky_pyOr _ _ s4, sticky_pyOr _ _ s5, sticky_pyOr _ _ s6,
        sticky_pyOr _ _ s7, sticky_pyOrInt _ _ s8, sticky_pyOr _ _ s9,
        sticky_pyOr _ _ s10, sticky_pyOr _ _ s11, pyOr_self, pyOrInt_self]
  · have hm1 : (merge_row rank tags fo a b).sources =
        merge_sources a.sources b.task_query 12 := rfl
    have hm2 : (merge_row rank tags fo b a).sources =
        merge_sources b.sources a.task_query 12 := rfl
    rw [hm1, hm2, hsrc_a, hsrc_b,
      merge_sources_two_keys a.task_query b.task_query hstrip_b hq_b hq_a hsplit_a,
      merge_sources_two_keys b.task_query a.task_query hstrip_a hq_a hq_b hsplit_b]
    by_cases hab : b.task_query = a.task_query
    · left
      rw [if_pos hab, if_pos hab.symm, hab]
    · right
      rw [if_neg hab, if_neg (Ne.symm hab)]
      exact ⟨rfl, rfl, Finset.pair_comm _ _⟩

/-- C1 witness: `baseRow` and `rowC` differ on the relevance score, mask
no sticky fields, and carry distinct clean provenance keys. -/
theorem merge_commutativity_amended_witness :
    { merge_row rank0 tags0 false baseRow rowC with sources := "" } =
      { merge_row rank0 tags0 false rowC baseRow with sources := "" } ∧
    ((merge_row rank0 tags0 false baseRow rowC).sources =
        (merge_row rank0 tags0 false rowC baseRow).sources ∨
      ((merge_row rank0 tags0 false baseRow rowC).sources =
          pyJoin '|' [baseRow.task_query, rowC.task_query] ∧
        (merge_row rank0 tags0 false rowC baseRow).sources =
          pyJoin '|' [rowC.task_query, baseRow.task_query] ∧
        ({baseRow.task_query, rowC.task_query} : Finset String) =
          {rowC.task_query, baseRow.task_query})) :=
  merge_commutativity_amended rank0 tags0 false baseRow rowC rfl rfl rfl
    (by decide) (by decide) (by decide) rfl rfl (by decide) (by decide)
    (by decide) (by decide) (by decide) (by decide)
